import Mathlib

/-!
Verification development for the remindria conversational schedule-intent
pipeline.  The Python source under `app/` is shallowly embedded:

* pure helpers (`parse_datetime`, `extract_json_from_text`,
  `extract_speak_block`) become Lean functions over `String`/`List Char`;
* the MongoDB-backed schedule store becomes an explicit `Store` value and
  every gateway function returns `Except String _`, where `.error`
  models a raised Python exception;
* the external collaborators (the OpenAI completion client, the
  `dateparser` library, timezone conversion performed by
  `datetime.astimezone`) are modelled as an oracle record `Env` passed
  explicitly: the code under test never inspects them, it only calls them.

Notes on fidelity kept throughout:
* Python falsiness of strings/dicts/`None` is modelled explicitly at each
  use site (`""` is falsy, `None` is `Option.none`, …).
* `datetime.strptime` is embedded with the CPython `_strptime` regex
  semantics: each directive is an ordered alternation of digit patterns,
  the leftmost backtracking match is taken, the match must consume the
  whole string, and range validation (leap years, day-of-month) happens
  afterwards when the `datetime` is constructed.
* JSON decoding (`json.loads`) is embedded by a strict recursive-descent
  parser supporting the object/array/string/int/bool/null fragment that
  the intent contract uses; trailing non-whitespace data is rejected
  exactly as `json.loads` rejects it.  (Float literals and `\u` escapes
  are outside the modelled fragment; no input used below contains them.)
-/

/-- Python whitespace (`str.strip`, regex `\s`): space, tab, newline,
carriage return, form feed, vertical tab. -/
def pyWS (c : Char) : Bool :=
  c = ' ' || c = '\t' || c = '\n' || c = '\r' || c = '\x0c' || c = '\x0b'

/-- Embedding of Python `str.strip()`. -/
def pyStrip (s : String) : String :=
  ⟨((s.data.dropWhile pyWS).reverse.dropWhile pyWS).reverse⟩

/-- Left brace character, kept out of literals. -/
def lbrace : Char := Char.ofNat 123

/-- Right brace character, kept out of literals. -/
def rbrace : Char := Char.ofNat 125

/-- Backtick character, kept out of literals. -/
def btick : Char := Char.ofNat 96

/-- A naive `datetime.datetime` value (the code never uses tzinfo-aware
comparisons inside the modelled fragment; timezone conversion is the
`Env.localToUTC` oracle). -/
structure DateTime where
  year : Nat
  month : Nat
  day : Nat
  hour : Nat
  minute : Nat
  second : Nat
deriving DecidableEq, Repr

/-- Field list used for the lexicographic order `datetime.__lt__`. -/
def DateTime.fields (d : DateTime) : List Nat :=
  [d.year, d.month, d.day, d.hour, d.minute, d.second]

/-- Lexicographic strict order on equal-length `Nat` lists. -/
def lexLt : List Nat → List Nat → Bool
  | [], [] => false
  | [], _ :: _ => true
  | _ :: _, [] => false
  | a :: as, b :: bs => a < b || (a = b && lexLt as bs)

/-- Comparison `a < b` for datetimes, as Python compares `datetime` values. -/
def dtLt (a b : DateTime) : Bool := lexLt a.fields b.fields

/-- Gregorian leap-year rule (as `datetime` validates days). -/
def isLeap (y : Nat) : Bool :=
  (y % 4 = 0 && y % 100 ≠ 0) || y % 400 = 0

/-- Days in a month, for `datetime` range validation. -/
def daysInMonth (y m : Nat) : Nat :=
  if m = 2 then (if isLeap y then 29 else 28)
  else if m = 4 || m = 6 || m = 9 || m = 11 then 30
  else 31

/-- Constructing `datetime(y, mo, d, h, mi, s)`: returns `none` when the
constructor would raise `ValueError` (out-of-range field). -/
def mkDT (y mo d h mi s : Nat) : Option DateTime :=
  if 1 ≤ y && y ≤ 9999 && 1 ≤ mo && mo ≤ 12 && 1 ≤ d && d ≤ daysInMonth y mo
      && h ≤ 23 && mi ≤ 59 && s ≤ 59 then
    some ⟨y, mo, d, h, mi, s⟩
  else none

/-- Digit value of a char assumed to satisfy `Char.isDigit`. -/
def dv (c : Char) : Nat := c.toNat - 48

/-- CPython `_strptime` directive `%Y`: exactly four digits. -/
def yCand : List Char → List (Nat × List Char)
  | c1 :: c2 :: c3 :: c4 :: r =>
    if c1.isDigit && c2.isDigit && c3.isDigit && c4.isDigit then
      [(((dv c1 * 10 + dv c2) * 10 + dv c3) * 10 + dv c4, r)]
    else []
  | _ => []

/-- CPython directive `%m`: alternation `1[0-2] | 0[1-9] | [1-9]`,
candidates returned in regex branch order (backtracking order). -/
def mCand : List Char → List (Nat × List Char)
  | c1 :: c2 :: r =>
    (if c1 = '1' && '0' ≤ c2 && c2 ≤ '2' then [(10 + dv c2, r)] else [])
    ++ (if c1 = '0' && '1' ≤ c2 && c2 ≤ '9' then [(dv c2, r)] else [])
    ++ (if '1' ≤ c1 && c1 ≤ '9' then [(dv c1, c2 :: r)] else [])
  | [c1] => if '1' ≤ c1 && c1 ≤ '9' then [(dv c1, [])] else []
  | [] => []

/-- CPython directive `%d`: alternation `3[01] | [12]\d | 0[1-9] | [1-9]`. -/
def dCand : List Char → List (Nat × List Char)
  | c1 :: c2 :: r =>
    (if c1 = '3' && (c2 = '0' || c2 = '1') then [(30 + dv c2, r)] else [])
    ++ (if (c1 = '1' || c1 = '2') && c2.isDigit then [(dv c1 * 10 + dv c2, r)] else [])
    ++ (if c1 = '0' && '1' ≤ c2 && c2 ≤ '9' then [(dv c2, r)] else [])
    ++ (if '1' ≤ c1 && c1 ≤ '9' then [(dv c1, c2 :: r)] else [])
  | [c1] => if '1' ≤ c1 && c1 ≤ '9' then [(dv c1, [])] else []
  | [] => []

/-- CPython directive `%H`: alternation `2[0-3] | [0-1]\d | \d`. -/
def hCand : List Char → List (Nat × List Char)
  | c1 :: c2 :: r =>
    (if c1 = '2' && '0' ≤ c2 && c2 ≤ '3' then [(20 + dv c2, r)] else [])
    ++ (if (c1 = '0' || c1 = '1') && c2.isDigit then [(dv c1 * 10 + dv c2, r)] else [])
    ++ (if c1.isDigit then [(dv c1, c2 :: r)] else [])
  | [c1] => if c1.isDigit then [(dv c1, [])] else []
  | [] => []

/-- CPython directive `%M`: alternation `[0-5]\d | \d`. -/
def minCand : List Char → List (Nat × List Char)
  | c1 :: c2 :: r =>
    (if '0' ≤ c1 && c1 ≤ '5' && c2.isDigit then [(dv c1 * 10 + dv c2, r)] else [])
    ++ (if c1.isDigit then [(dv c1, c2 :: r)] else [])
  | [c1] => if c1.isDigit then [(dv c1, [])] else []
  | [] => []

/-- CPython directive `%S`: alternation `6[0-1] | [0-5]\d | \d` (the regex
admits leap seconds 60/61; `datetime` then rejects them in `mkDT`). -/
def sCand : List Char → List (Nat × List Char)
  | c1 :: c2 :: r =>
    (if c1 = '6' && (c2 = '0' || c2 = '1') then [(60 + dv c2, r)] else [])
    ++ (if '0' ≤ c1 && c1 ≤ '5' && c2.isDigit then [(dv c1 * 10 + dv c2, r)] else [])
    ++ (if c1.isDigit then [(dv c1, c2 :: r)] else [])
  | [c1] => if c1.isDigit then [(dv c1, [])] else []
  | [] => []

/-- A literal character in the format (the `_strptime` regex is compiled
with `re.IGNORECASE`, so letters match case-insensitively). -/
def litCand (c : Char) : List Char → List (Unit × List Char)
  | x :: r => if x.toLower = c.toLower then [((), r)] else []
  | [] => []

/-- Whitespace in a format string becomes `\s+`.  The directive following
it in every format used here is a digit pattern, so consuming the whole
whitespace run greedily is exact. -/
def wsCand : List Char → List (Unit × List Char)
  | x :: r => if pyWS x then [((), (x :: r).dropWhile pyWS)] else []
  | [] => []

/-- Raw (not yet range-validated) capture of a date-time format. -/
structure RawDT where
  y : Nat
  mo : Nat
  d : Nat
  h : Nat
  mi : Nat
  s : Nat
deriving Repr

/-- Backtracking candidates of `"%Y-%m-%d %H:%M:%S"`. -/
def fmt1Cands (cs : List Char) : List (RawDT × List Char) :=
  (yCand cs).flatMap fun p1 =>
  (litCand '-' p1.2).flatMap fun q1 =>
  (mCand q1.2).flatMap fun p2 =>
  (litCand '-' p2.2).flatMap fun q2 =>
  (dCand q2.2).flatMap fun p3 =>
  (wsCand p3.2).flatMap fun q3 =>
  (hCand q3.2).flatMap fun p4 =>
  (litCand ':' p4.2).flatMap fun q4 =>
  (minCand q4.2).flatMap fun p5 =>
  (litCand ':' p5.2).flatMap fun q5 =>
  (sCand q5.2).map fun p6 =>
  (⟨p1.1, p2.1, p3.1, p4.1, p5.1, p6.1⟩, p6.2)

/-- Backtracking candidates of `"%Y-%m-%dT%H:%M:%S"`. -/
def fmt2Cands (cs : List Char) : List (RawDT × List Char) :=
  (yCand cs).flatMap fun p1 =>
  (litCand '-' p1.2).flatMap fun q1 =>
  (mCand q1.2).flatMap fun p2 =>
  (litCand '-' p2.2).flatMap fun q2 =>
  (dCand q2.2).flatMap fun p3 =>
  (litCand 'T' p3.2).flatMap fun q3 =>
  (hCand q3.2).flatMap fun p4 =>
  (litCand ':' p4.2).flatMap fun q4 =>
  (minCand q4.2).flatMap fun p5 =>
  (litCand ':' p5.2).flatMap fun q5 =>
  (sCand q5.2).map fun p6 =>
  (⟨p1.1, p2.1, p3.1, p4.1, p5.1, p6.1⟩, p6.2)

/-- Backtracking candidates of `"%m/%d/%Y %H:%M"` (seconds default to 0,
as `strptime` defaults unset fields). -/
def fmt3Cands (cs : List Char) : List (RawDT × List Char) :=
  (mCand cs).flatMap fun p1 =>
  (litCand '/' p1.2).flatMap fun q1 =>
  (dCand q1.2).flatMap fun p2 =>
  (litCand '/' p2.2).flatMap fun q2 =>
  (yCand q2.2).flatMap fun p3 =>
  (wsCand p3.2).flatMap fun q3 =>
  (hCand q3.2).flatMap fun p4 =>
  (litCand ':' p4.2).flatMap fun q4 =>
  (minCand q4.2).map fun p5 =>
  (⟨p3.1, p1.1, p2.1, p4.1, p5.1, 0⟩, p5.2)

/-- Embedding of `datetime.strptime(s, fmt)` for one format: take the backtracking-first
regex match, require it to consume the whole string (`_strptime` raises on
unconverted data), then range-validate through the `datetime` constructor.
Returns `none` where Python raises `ValueError`. -/
def strptimeWith (cands : List Char → List (RawDT × List Char)) (s : String) :
    Option DateTime :=
  match cands s.data with
  | (raw, rest) :: _ =>
    if rest = [] then mkDT raw.y raw.mo raw.d raw.h raw.mi raw.s else none
  | [] => none

/-- The format `"%Y-%m-%d %H:%M:%S"` of `strptime`. -/
def strptime1 (s : String) : Option DateTime := strptimeWith fmt1Cands s

/-- The format `"%Y-%m-%dT%H:%M:%S"` of `strptime`. -/
def strptime2 (s : String) : Option DateTime := strptimeWith fmt2Cands s

/-- The format `"%m/%d/%Y %H:%M"` of `strptime`. -/
def strptime3 (s : String) : Option DateTime := strptimeWith fmt3Cands s

/-- A conversation message (`{"role": ..., "content": ...}`). -/
structure Msg where
  role : String
  content : String
deriving DecidableEq, Repr

/-- Oracle record for the external collaborators of the core:
`dateparser.parse`, `datetime.astimezone(timezone.utc)` on naive
datetimes (which consults the local timezone of the host), and the OpenAI
completion client used for summarization and normal replies.  A
`.error` result of a completion oracle models a raised exception. -/
structure Env where
  dateparser : String → Option DateTime
  localToUTC : DateTime → DateTime
  summarizeCall : List Msg → Except String String
  chatCompletion : List Msg → Except String String

/-- Embedding of `app/utils/helper.py::parse_datetime`: try the three
strict formats in order, then fall back to `dateparser.parse`. -/
def parse_datetime (env : Env) (dt_str : String) : Option DateTime :=
  match strptime1 dt_str with
  | some d => some d
  | none =>
    match strptime2 dt_str with
    | some d => some d
    | none =>
      match strptime3 dt_str with
      | some d => some d
      | none => env.dateparser dt_str

/-- JSON values in the fragment the intent contract uses. -/
inductive Json where
  | null : Json
  | bool : Bool → Json
  | num : Int → Json
  | str : String → Json
  | arr : List Json → Json
  | obj : List (String × Json) → Json
deriving Repr, BEq

/-- JSON structural whitespace (RFC 8259, as `json.loads` skips). -/
def jsonWS (c : Char) : Bool :=
  c = ' ' || c = '\t' || c = '\n' || c = '\r'

/-- Skip JSON whitespace. -/
def skipWs (cs : List Char) : List Char := cs.dropWhile jsonWS

/-- One escape character after a backslash inside a JSON string
(`\uXXXX` is outside the modelled fragment and fails the parse). -/
def escChar (c : Char) : Option Char :=
  if c = '"' then some '"'
  else if c = '\\' then some '\\'
  else if c = '/' then some '/'
  else if c = 'n' then some '\n'
  else if c = 't' then some '\t'
  else if c = 'r' then some '\r'
  else if c = 'b' then some '\x08'
  else if c = 'f' then some '\x0c'
  else none

/-- Characters of a JSON string after the opening quote, up to the
closing quote; raw control characters are rejected as `json.loads`
rejects them. -/
def parseStrChars : List Char → Option (List Char × List Char)
  | [] => none
  | c :: r =>
    if c = '"' then some ([], r)
    else if c = '\\' then
      match r with
      | [] => none
      | e :: r2 =>
        match escChar e with
        | none => none
        | some ec =>
          match parseStrChars r2 with
          | none => none
          | some (cs, rest) => some (ec :: cs, rest)
    else if c.toNat < 32 then none
    else
      match parseStrChars r with
      | none => none
      | some (cs, rest) => some (c :: cs, rest)

/-- Digits of an integer literal (floats and exponents are outside the
modelled fragment: a following `.`/`e` makes the whole parse fail). -/
def parseNat (cs : List Char) : Option (Nat × List Char) :=
  match cs.span Char.isDigit with
  | (ds, rest) =>
    if ds = [] then none
    else
      match rest with
      | c :: _ => if c = '.' || c = 'e' || c = 'E' then none
                  else some (ds.foldl (fun a c => a * 10 + dv c) 0, rest)
      | [] => some (ds.foldl (fun a c => a * 10 + dv c) 0, rest)

mutual

/-- Recursive-descent JSON value parser (fuel-indexed; the fuel passed at
top level strictly dominates the nesting depth). -/
def parseVal : Nat → List Char → Option (Json × List Char)
  | 0, _ => none
  | fuel + 1, cs =>
    match skipWs cs with
    | 'n' :: 'u' :: 'l' :: 'l' :: r => some (.null, r)
    | 't' :: 'r' :: 'u' :: 'e' :: r => some (.bool true, r)
    | 'f' :: 'a' :: 'l' :: 's' :: 'e' :: r => some (.bool false, r)
    | '"' :: r =>
      match parseStrChars r with
      | some (cs2, rest) => some (.str ⟨cs2⟩, rest)
      | none => none
    | '-' :: r =>
      match parseNat r with
      | some (n, rest) => some (.num (-(n : Int)), rest)
      | none => none
    | '[' :: r =>
      (match skipWs r with
       | ']' :: rest => some (.arr [], rest)
       | r2 =>
         match parseItems fuel r2 with
         | some (items, rest) => some (.arr items, rest)
         | none => none)
    | c :: r =>
      if c = lbrace then
        (match skipWs r with
         | c2 :: rest2 =>
           if c2 = rbrace then some (.obj [], rest2)
           else
             (match parseMembers fuel (c2 :: rest2) with
              | some (kvs, rest) => some (.obj kvs, rest)
              | none => none)
         | [] => none)
      else if c.isDigit then
        match parseNat (c :: r) with
        | some (n, rest) => some (.num (n : Int), rest)
        | none => none
      else none
    | [] => none

/-- Array elements after the opening bracket (non-empty case). -/
def parseItems : Nat → List Char → Option (List Json × List Char)
  | 0, _ => none
  | fuel + 1, cs =>
    match parseVal fuel cs with
    | none => none
    | some (v, rest) =>
      match skipWs rest with
      | ',' :: r2 =>
        (match parseItems fuel r2 with
         | some (vs, rest2) => some (v :: vs, rest2)
         | none => none)
      | ']' :: r2 => some ([v], r2)
      | _ => none

/-- Object members after the opening brace (non-empty case). -/
def parseMembers : Nat → List Char → Option (List (String × Json) × List Char)
  | 0, _ => none
  | fuel + 1, cs =>
    match skipWs cs with
    | '"' :: r =>
      (match parseStrChars r with
       | none => none
       | some (kcs, rest) =>
         match skipWs rest with
         | ':' :: r2 =>
           (match parseVal fuel r2 with
            | none => none
            | some (v, rest2) =>
              match skipWs rest2 with
              | ',' :: r3 =>
                (match parseMembers fuel r3 with
                 | some (kvs, rest3) => some ((⟨kcs⟩, v) :: kvs, rest3)
                 | none => none)
              | c :: r3 =>
                if c = rbrace then some ([(⟨kcs⟩, v)], r3) else none
              | [] => none)
         | _ => none)
    | _ => none

end

/-- Embedding of `json.loads`: parse one value, allow only trailing
whitespace (otherwise `json.loads` raises "Extra data"). -/
def jsonParse (s : String) : Option Json :=
  match parseVal (s.data.length + 1) s.data with
  | some (v, rest) => if skipWs rest = [] then some v else none
  | none => none

/-- Case-insensitive prefix test on char lists (regex literals under
`re.IGNORECASE`). -/
def startsWithCI : List Char → List Char → Bool
  | [], _ => true
  | _ :: _, [] => false
  | p :: ps, c :: cs => p.toLower = c.toLower && startsWithCI ps cs

/-- Case-sensitive prefix test on char lists. -/
def startsWithCS : List Char → List Char → Bool
  | [], _ => true
  | _ :: _, [] => false
  | p :: ps, c :: cs => p = c && startsWithCS ps cs

/-- The seven characters of the fence opener literal in the pattern
    three backticks followed by the letters j s o n. -/
def fenceLit : List Char := [btick, btick, btick, 'j', 's', 'o', 'n']

/-- Three backticks, the fence closer literal. -/
def fenceClose : List Char := [btick, btick, btick]

/-- Lazy body of the fenced pattern after the opening brace: the shortest
extension ending at a closing brace that is followed by whitespace and
three backticks — exactly the backtracking order of the lazy group in
the regex.  Returns the body characters including the closing brace. -/
def lazyFenceBody : List Char → Option (List Char)
  | [] => none
  | c :: r =>
    if c = rbrace && startsWithCS fenceClose (r.dropWhile pyWS) then
      some [c]
    else
      match lazyFenceBody r with
      | some t => some (c :: t)
      | none => none

/-- Try to complete the fenced-pattern match right after an occurrence of
the fence opener literal: skip whitespace, require an opening brace, then
lazily find the closing brace followed by the fence closer. -/
def fenceAt (cs : List Char) : Option (List Char) :=
  match cs.dropWhile pyWS with
  | c :: r =>
    if c = lbrace then
      match lazyFenceBody r with
      | some body => some (c :: body)
      | none => none
    else none
  | [] => none

/-- Scan of the fenced code-block pattern: `re.search` tries every start
position left to right; the pattern begins with the fence opener literal.
The captured group is the brace-delimited body. -/
def fenceScan : List Char → Option (List Char)
  | [] => none
  | c :: rest =>
    if startsWithCS fenceLit (c :: rest) then
      match fenceAt ((c :: rest).drop 7) with
      | some frag => some frag
      | none => fenceScan rest
    else fenceScan rest

/-- Prefix of `cs` up to and including the last occurrence of `stop`
(`none` when `stop` does not occur): the greedy `.*` of the object
pattern runs to the last closing brace of the text. -/
def upToLast (stop : Char) (cs : List Char) : Option (List Char) :=
  match cs.reverse.dropWhile (fun c => ¬ c = stop) with
  | [] => none
  | r => some r.reverse

/-- Embedding of `app/utils/helper.py::extract_json_from_text`.  The first
regex looks for a brace-delimited object inside a json-tagged fence; the
second regex is greedy `(\x7b.*\x7d)` with DOTALL: the match starts at
the first opening brace that has some closing brace after it and runs to
the last closing brace of the whole text.  Neither pattern matches a
bracket-delimited array as such: the regexes only delimit braces. -/
def extract_json_from_text (text : String) : Option String :=
  match fenceScan text.data with
  | some frag => some ⟨frag⟩
  | none =>
    match text.data.dropWhile (fun c => ¬ c = lbrace) with
    | [] => none
    | _ :: tail =>
      match upToLast rbrace tail with
      | none => none
      | some mid => some ⟨lbrace :: mid⟩

/-- The literal opening speech tag (lowercase reference; matching is
case-insensitive). -/
def speakOpen : List Char := ['<', 's', 'p', 'e', 'a', 'k', '>']

/-- The literal closing speech tag. -/
def speakClose : List Char := ['<', '/', 's', 'p', 'e', 'a', 'k', '>']

/-- Lazy text up to and including the first (case-insensitive) closing
speech tag. -/
def lazySpeakBody : List Char → Option (List Char)
  | [] => none
  | c :: r =>
    if startsWithCI speakClose (c :: r) then
      some ((c :: r).take 8)
    else
      match lazySpeakBody r with
      | some t => some (c :: t)
      | none => none

/-- Scan of the speech-block pattern at every start position. -/
def speakScan : List Char → Option (List Char)
  | [] => none
  | c :: rest =>
    if startsWithCI speakOpen (c :: rest) then
      match lazySpeakBody ((c :: rest).drop 7) with
      | some body => some ((c :: rest).take 7 ++ body)
      | none => speakScan rest
    else speakScan rest

/-- Embedding of `app/utils/helper.py::extract_speak_block`: the first
case-insensitive speech-markup block, or the empty string when none is
found. -/
def extract_speak_block (text : String) : String :=
  match speakScan text.data with
  | some block => ⟨block⟩
  | none => ""

/-- Validated `add_schedule` action (the dict built in
`parse_natural_language_instructions`). -/
structure AddActionData where
  schedule_title : String
  start_time : DateTime
  end_time : Option DateTime
  image : String
deriving DecidableEq, Repr

/-- Validated `update_schedule` action. -/
structure UpdateActionData where
  schedule_identifier : String
  existing_start_time : Option DateTime
  new_title : Option String
  new_start_time : Option DateTime
  new_end_time : Option DateTime
deriving DecidableEq, Repr

/-- Validated `delete_schedule` action. -/
structure DeleteActionData where
  schedule_identifier : String
  existing_start_time : Option DateTime
deriving DecidableEq, Repr

/-- The tagged union of schedule actions produced per turn. -/
inductive SchedAction where
  | add : AddActionData → SchedAction
  | update : UpdateActionData → SchedAction
  | delete : DeleteActionData → SchedAction
deriving DecidableEq, Repr

/-- Embedding of `dict.get` on a JSON object: last binding wins, as `json.loads`
builds Python dicts. -/
def jGet (kvs : List (String × Json)) (k : String) : Option Json :=
  kvs.foldl (fun acc kv => if kv.1 = k then some kv.2 else acc) none

/-- Embedding of `dict.get(k, default)`. -/
def jGetD (kvs : List (String × Json)) (k : String) (dflt : Json) : Json :=
  (jGet kvs k).getD dflt

/-- Python truthiness of a JSON-decoded value. -/
def pyTruthy : Json → Bool
  | .null => false
  | .bool b => b
  | .num n => ¬ n = 0
  | .str s => ¬ s = ""
  | .arr l => !l.isEmpty
  | .obj l => !l.isEmpty

/-- Coerce a JSON value to the string the Python code passes to
`datetime.strptime` / stores into the action dict.  A non-string value
would raise `TypeError` in `strptime` (uncaught, so it escapes the
parser); values of other shapes in string positions are outside the
modelled fragment and mapped to the same `.error` case. -/
def asPyStr : Json → Except String String
  | .str s => .ok s
  | _ => .error "TypeError: strptime() argument 1 must be str"

/-- The `new_title = item.get("new_title")` field: absent and JSON null
both become Python `None`; a string stays a string. -/
def asOptStr (j : Option Json) : Except String (Option String) :=
  match j with
  | none => .ok none
  | some .null => .ok none
  | some (.str s) => .ok (some s)
  | some _ => .error "model: non-string new_title outside embedded fragment"

/-- Truthiness of `item.get(k)` (no default). -/
def jTruthy (kvs : List (String × Json)) (k : String) : Bool :=
  match jGet kvs k with
  | none => false
  | some j => pyTruthy j

/-- Validation of one array element of the intent contract
(`app/ai/caller.py::parse_natural_language_instructions`, the per-item
branches).  `.ok none` models `return None` (whole batch rejected);
`.error` models an uncaught Python exception. -/
def validateItem (env : Env) (kvs : List (String × Json)) :
    Except String (Option SchedAction) :=
  match jGet kvs "intent" with
  | some (.str "add_schedule") =>
    match asPyStr (jGetD kvs "start_time" (.str "")) with
    | .error e => .error e
    | .ok startS =>
      let start_dt := parse_datetime env startS
      match (if jTruthy kvs "end_time" then
               (asPyStr (jGetD kvs "end_time" (.str ""))).map
                 (fun s => parse_datetime env s)
             else .ok none) with
      | .error e => .error e
      | .ok end_dt =>
        match asPyStr (jGetD kvs "image" (.str "")) with
        | .error e => .error e
        | .ok image =>
          match start_dt with
          | none => .ok none
          | some sd =>
            match asPyStr (jGetD kvs "schedule_title" (.str "")) with
            | .error e => .error e
            | .ok title => .ok (some (.add ⟨title, sd, end_dt, image⟩))
  | some (.str "update_schedule") =>
    match asPyStr (jGetD kvs "schedule_identifier" (.str "")) with
    | .error e => .error e
    | .ok schedId =>
      match asPyStr (jGetD kvs "existing_start_time" (.str "")) with
      | .error e => .error e
      | .ok existS =>
        match asOptStr (jGet kvs "new_title") with
        | .error e => .error e
        | .ok new_title =>
          match asPyStr (jGetD kvs "new_start_time" (.str "")) with
          | .error e => .error e
          | .ok newStartS =>
            match (if jTruthy kvs "new_end_time" then
                     (asPyStr (jGetD kvs "new_end_time" (.str ""))).map
                       (fun s => parse_datetime env s)
                   else .ok none) with
            | .error e => .error e
            | .ok new_end =>
              let existing_start_dt := parse_datetime env existS
              let new_start_dt := parse_datetime env newStartS
              if schedId = "" && (new_title.getD "") = ""
                  && new_start_dt = none && new_end = none then
                .ok none
              else
                .ok (some (.update
                  ⟨schedId, existing_start_dt, new_title, new_start_dt, new_end⟩))
  | some (.str "delete_schedule") =>
    match asPyStr (jGetD kvs "schedule_identifier" (.str "")) with
    | .error e => .error e
    | .ok schedId =>
      match asPyStr (jGetD kvs "existing_start_time" (.str "")) with
      | .error e => .error e
      | .ok existS =>
        if schedId = "" then .ok none
        else
          .ok (some (.delete ⟨schedId, parse_datetime env existS⟩))
  | _ => .ok none

/-- The validation loop over the parsed array: any non-dict element or
rejected item aborts the whole batch with `None`. -/
def validateItems (env : Env) : List Json → Except String (Option (List SchedAction))
  | [] => .ok (some [])
  | j :: rest =>
    match j with
    | .obj kvs =>
      (match validateItem env kvs with
       | .error e => .error e
       | .ok none => .ok none
       | .ok (some a) =>
         match validateItems env rest with
         | .error e => .error e
         | .ok none => .ok none
         | .ok (some as) => .ok (some (a :: as)))
    | _ => .ok none

/-- Embedding of `app/ai/caller.py::parse_natural_language_instructions`
from the point the completion text is in hand (`aiText` is the raw
`choices[0].message.content`; a failed completion call returns `None`
before this point and is not modelled further).  `.ok none` models
`return None`, `.ok (some acts)` the validated action list, `.error` an
uncaught exception. -/
def parse_natural_language_instructions (env : Env) (aiText : String) :
    Except String (Option (List SchedAction)) :=
  match extract_json_from_text (pyStrip aiText) with
  | none => .ok none
  | some json_str =>
    match jsonParse json_str with
    | none => .ok none
    | some parsed =>
      match parsed with
      | .str s => if s.toLower = "null" then .ok none else .ok none
      | .arr items =>
        (match validateItems env items with
         | .error e => .error e
         | .ok none => .ok none
         | .ok (some acts) =>
           if acts = [] then .ok none else .ok (some acts))
      | _ => .ok none

/-- Embedding of `bson.ObjectId.is_valid` on a string: exactly 24 hexadecimal
characters. -/
def validObjectId (s : String) : Bool :=
  s.length = 24 && s.data.all (fun c => c.isDigit
    || ('a' ≤ c && c ≤ 'f') || ('A' ≤ c && c ≤ 'F'))

/-- A stored schedule document (`ScheduleModel.to_dict`).  `sid` models
the Mongo `_id`; `str(ObjectId)` always round-trips to a valid id, so the
gateway check `ObjectId.is_valid` on ids read back from documents is
definitionally satisfied and ids are kept as naturals.  The
`created_at`/`updated_at` timestamps are write-only in the modelled
fragment and are omitted. -/
structure Schedule where
  sid : Nat
  user_id : String
  reminder_message : String
  schedule_date : DateTime
  schedule_end_date : Option DateTime
  image : Option String
  recurrence : Option String
  status : String
  event_id : Option String
  is_deleted : Bool
deriving DecidableEq, Repr

/-- The schedules collection plus the id counter for fresh inserts. -/
structure Store where
  schedules : List Schedule
  nextId : Nat
deriving DecidableEq, Repr

/-- Payload handed to `create_schedule` by the Create executor. -/
structure CreatePayload where
  user_id : String
  reminder_message : String
  schedule_date : Option DateTime
  schedule_end_date : Option DateTime
  image : Option String
  recurrence : Option String
  status : String
deriving DecidableEq, Repr

/-- Embedding of `app/models/schedule_model.py::create_schedule`: validate
required fields for Python truthiness, check the date order, convert both
dates to UTC (`astimezone`), convert the owner to an `ObjectId` (raising
on an invalid id inside `to_dict`), and insert.  Returns the new store and
the created id. -/
def create_schedule (env : Env) (st : Store) (p : CreatePayload) :
    Except String (Store × Nat) :=
  if p.user_id = "" then
    .error "Validation Error: user_id is a required field and cannot be empty."
  else if p.reminder_message = "" then
    .error "Validation Error: reminder_message is a required field and cannot be empty."
  else
    match p.schedule_date with
    | none =>
      .error "Validation Error: schedule_date is a required field and cannot be empty."
    | some sd =>
      match p.schedule_end_date with
      | none =>
        .error "Validation Error: schedule_end_date is a required field and cannot be empty."
      | some ed =>
        if dtLt ed sd then
          .error "Validation Error: schedule_end_date cannot be before schedule_date."
        else if ¬ validObjectId p.user_id then
          .error "Failed to create schedule: invalid ObjectId"
        else
          let doc : Schedule :=
            ⟨st.nextId, p.user_id, p.reminder_message,
             env.localToUTC sd, some (env.localToUTC ed),
             p.image, p.recurrence, p.status, none, false⟩
          .ok (⟨st.schedules ++ [doc], st.nextId + 1⟩, st.nextId)

/-- Embedding of `find_schedule_by_id`: filters on the id and on
`is_deleted = False`. -/
def find_schedule_by_id (st : Store) (sid : Nat) : Option Schedule :=
  st.schedules.find? (fun s => s.sid = sid && s.is_deleted = false)

/-- Embedding of `find_schedule_by_name_and_datetime`: validates the
owner id and that the date argument is a `datetime` (raising otherwise),
then matches on owner, reminder message and exact start date — with no
`is_deleted` filter. -/
def find_schedule_by_name_and_datetime (st : Store) (user_id : String)
    (reminder_message : String) (schedule_date : Option DateTime) :
    Except String (Option Schedule) :=
  if ¬ validObjectId user_id then
    .error "Failed to find schedule by name & datetime: not a valid ObjectId."
  else
    match schedule_date with
    | none =>
      .error "Failed to find schedule by name & datetime: schedule_date must be a valid datetime object."
    | some d =>
      .ok (st.schedules.find? (fun s =>
        s.user_id = user_id && s.reminder_message = reminder_message
          && s.schedule_date = d))

/-- Sparse `$set` map built by the Update executor. -/
structure SchedUpdates where
  reminder_message : Option String
  schedule_date : Option DateTime
  schedule_end_date : Option DateTime
deriving DecidableEq, Repr

/-- Remove the first element satisfying the predicate
(`delete_one` semantics). -/
def deleteFirst (p : Schedule → Bool) : List Schedule → List Schedule
  | [] => []
  | x :: xs => if p x then xs else x :: deleteFirst p xs

/-- Replace the first element satisfying the predicate
(`update_one` semantics). -/
def updateFirst (p : Schedule → Bool) (f : Schedule → Schedule) :
    List Schedule → List Schedule
  | [] => []
  | x :: xs => if p x then f x :: xs else x :: updateFirst p f xs

/-- Apply a sparse update map to a document. -/
def applyUpdates (u : SchedUpdates) (s : Schedule) : Schedule :=
  { s with
    reminder_message := u.reminder_message.getD s.reminder_message,
    schedule_date := u.schedule_date.getD s.schedule_date,
    schedule_end_date :=
      match u.schedule_end_date with
      | some e => some e
      | none => s.schedule_end_date }

/-- Embedding of `update_schedule`: reject an empty update map, look the
document up by id with no `is_deleted` filter, enforce the date-order
constraint against the merged dates, then `$set`.  The code always adds a
fresh `updated_at`, so a successful `update_one` always reports one
modified document. -/
def update_schedule (st : Store) (sid : Nat) (u : SchedUpdates) :
    Except String (Store × Nat) :=
  if u.reminder_message = none && u.schedule_date = none
      && u.schedule_end_date = none then
    .error "Validation Error: The updates argument must be a non-empty dictionary."
  else
    match st.schedules.find? (fun s => s.sid = sid) with
    | none => .error "Validation Error: No schedule found with ID."
    | some ex =>
      let ud := u.schedule_date.getD ex.schedule_date
      let ue := match u.schedule_end_date with
                | some e => some e
                | none => ex.schedule_end_date
      match ue with
      | some e =>
        if dtLt e ud then
          .error "Validation Error: schedule_end_date cannot be earlier than schedule_date. Please adjust the dates."
        else
          .ok (⟨updateFirst (fun s => s.sid = sid) (applyUpdates u) st.schedules,
                st.nextId⟩, 1)
      | none =>
        .ok (⟨updateFirst (fun s => s.sid = sid) (applyUpdates u) st.schedules,
              st.nextId⟩, 1)

/-- Embedding of `delete_schedule`: look the document up by id with no
`is_deleted` filter (raising "No schedule found" when absent), then
`delete_one` on the id. -/
def delete_schedule (st : Store) (sid : Nat) : Except String (Store × Nat) :=
  match st.schedules.find? (fun s => s.sid = sid) with
  | none => .error "Validation Error: No schedule found with ID."
  | some _ =>
    .ok (⟨deleteFirst (fun s => s.sid = sid) st.schedules, st.nextId⟩, 1)

/-- Zero-padded decimal rendering. -/
def padNum (width n : Nat) : String :=
  let s := toString n
  ⟨List.replicate (width - s.length) '0'⟩ ++ s

/-- Embedding of `datetime.isoformat()` on a naive datetime. -/
def isoformat (d : DateTime) : String :=
  padNum 4 d.year ++ "-" ++ padNum 2 d.month ++ "-" ++ padNum 2 d.day ++ "T"
    ++ padNum 2 d.hour ++ ":" ++ padNum 2 d.minute ++ ":" ++ padNum 2 d.second

/-- The structured outcome of an executed action: exactly the
`action_type` / `success` / `schedule_info` arguments the executors pass
to `generate_action_response` (the user-facing message is then produced
by the completion oracle from this outcome). -/
structure Outcome where
  action_type : String
  success : Bool
  info : List (String × String)
deriving DecidableEq, Repr

/-- Input of the Create executor (`schedule_data` in
`actually_create_schedule`). -/
structure CreateData where
  title : String
  start_time : DateTime
  end_time : Option DateTime
  image : Option String
deriving DecidableEq, Repr

/-- Embedding of `app/views/chat_view.py::actually_create_schedule`.
Everything runs inside `try`: a gateway error is caught and turned into a
failure outcome.  On the success path the code formats
`end_dt.isoformat()` unconditionally; when `end_time` is `None` that
raises `AttributeError` *after* the insert, which the same `except`
catches — the failure outcome is returned although the document was
persisted.  (That branch is unreachable from the gateway, which already
rejects a missing `schedule_end_date`.)  Returns the resulting store, the
created id (`None` on the failure path) and the outcome. -/
def actually_create_schedule (env : Env) (st : Store) (d : CreateData)
    (user_id : String) : Store × Option Nat × Outcome :=
  let payload : CreatePayload :=
    ⟨user_id, d.title, some d.start_time, d.end_time, d.image, none, "Pending"⟩
  match create_schedule env st payload with
  | .error e =>
    (st, none, ⟨"create", false, [("error_details", e), ("title", d.title)]⟩)
  | .ok (st2, created_id) =>
    match d.end_time with
    | none =>
      (st2, none, ⟨"create", false,
        [("error_details",
          "AttributeError: NoneType object has no attribute isoformat"),
         ("title", d.title)]⟩)
    | some ed =>
      (st2, some created_id, ⟨"create", true,
        [("title", d.title), ("start_time", isoformat d.start_time),
         ("end_time", isoformat ed), ("created_id", toString created_id)]⟩)

/-- Render the sparse update map into outcome details. -/
def updatesInfo (u : SchedUpdates) : List (String × String) :=
  (match u.reminder_message with
   | some t => [("reminder_message", t)]
   | none => [])
  ++ (match u.schedule_date with
      | some d => [("schedule_date", isoformat d)]
      | none => [])
  ++ (match u.schedule_end_date with
      | some d => [("schedule_end_date", isoformat d)]
      | none => [])

/-- Embedding of `actually_update_schedule`: resolve by (owner,
identifier-as-title, existing start time) through the exact gateway
lookup, build the sparse update map from the truthy `new_*` fields,
reject an empty map, apply, and treat zero modified count as failure; any
raised error is caught into a failure outcome. -/
def actually_update_schedule (_env : Env) (st : Store) (u : UpdateActionData)
    (user_id : String) : Store × Outcome :=
  match find_schedule_by_name_and_datetime st user_id u.schedule_identifier
      u.existing_start_time with
  | .error e =>
    (st, ⟨"update", false, [("error_details", e)]⟩)
  | .ok none =>
    (st, ⟨"update", false,
      [("error_details",
        "Could not find a schedule named " ++ u.schedule_identifier
          ++ " to update.")]⟩)
  | .ok (some doc) =>
    let updates : SchedUpdates :=
      ⟨(match u.new_title with
        | some t => if ¬ t = "" then some t else none
        | none => none),
       u.new_start_time, u.new_end_time⟩
    if updates.reminder_message = none && updates.schedule_date = none
        && updates.schedule_end_date = none then
      (st, ⟨"update", false, [("error_details", "No new changes provided.")]⟩)
    else
      match update_schedule st doc.sid updates with
      | .error e => (st, ⟨"update", false, [("error_details", e)]⟩)
      | .ok (st2, count) =>
        if count = 0 then
          (st2, ⟨"update", false,
            [("error_details",
              "Failed to update schedule " ++ u.schedule_identifier ++ ".")]⟩)
        else
          (st2, ⟨"update", true,
            [("identifier", u.schedule_identifier),
             ("original_time",
              match u.existing_start_time with
              | some t => isoformat t
              | none => "None")]
            ++ updatesInfo updates⟩)

/-- Embedding of `actually_delete_schedule`: same resolution as Update,
then a hard `delete_one`; zero deleted count is a failure outcome; any
raised error is caught into a failure outcome. -/
def actually_delete_schedule (_env : Env) (st : Store) (d : DeleteActionData)
    (user_id : String) : Store × Outcome :=
  match find_schedule_by_name_and_datetime st user_id d.schedule_identifier
      d.existing_start_time with
  | .error e =>
    (st, ⟨"delete", false, [("error_details", e)]⟩)
  | .ok none =>
    (st, ⟨"delete", false,
      [("error_details",
        "Could not find a schedule named " ++ d.schedule_identifier
          ++ " to delete.")]⟩)
  | .ok (some doc) =>
    match delete_schedule st doc.sid with
    | .error e => (st, ⟨"delete", false, [("error_details", e)]⟩)
    | .ok (st2, count) =>
      if count = 0 then
        (st2, ⟨"delete", false,
          [("error_details",
            "Failed to delete schedule " ++ d.schedule_identifier ++ ".")]⟩)
      else
        (st2, ⟨"delete", true,
          [("identifier", d.schedule_identifier),
           ("original_time",
            match d.existing_start_time with
            | some t => isoformat t
            | none => "None")]⟩)

/-- Non-system message filter used by the trimming and summarization
code (`role in ["user", "assistant"]`). -/
def isUA (m : Msg) : Bool := m.role = "user" || m.role = "assistant"

/-- System message filter. -/
def isSystem (m : Msg) : Bool := m.role = "system"

/-- The chat document fields the Memory Manager touches. -/
structure ChatDoc where
  summary_so_far : Option String
deriving DecidableEq, Repr

/-- Embedding of `app/ai/caller.py::summarize_with_ai`: filter the
history to user/assistant messages, return a fixed string when nothing is
left, otherwise ask the completion client (whose raised errors
propagate). -/
def summarize_with_ai (env : Env) (conversation_history : List Msg) :
    Except String String :=
  let filtered_history := conversation_history.filter isUA
  if filtered_history = [] then .ok "No previous conversation."
  else env.summarizeCall filtered_history

/-- The fixed trimming threshold `MAX_RECENT`. -/
def MAX_RECENT : Nat := 8

/-- Embedding of `app/views/chat_view.py::maybe_proactive_trimming`.
When more than `MAX_RECENT` non-system messages are live, the older
prefix is summarized, the summary is appended (double-newline separated)
onto any existing `summary_so_far`, and the live window becomes
{system messages} ++ {recent suffix}.  There is no exception handling
here: a raised summarization error propagates (`.error`) before any
summary is stored or the window is touched. -/
def maybe_proactive_trimming (env : Env) (doc : ChatDoc)
    (conversation_history : List Msg) : Except String (ChatDoc × List Msg) :=
  let system_msgs := conversation_history.filter isSystem
  let user_assistant_msgs := conversation_history.filter isUA
  if user_assistant_msgs.length > MAX_RECENT then
    let older_count := user_assistant_msgs.length - MAX_RECENT
    let older_chunk := user_assistant_msgs.take older_count
    let recent_chunk := user_assistant_msgs.drop older_count
    match summarize_with_ai env older_chunk with
    | .error e => .error e
    | .ok summary_text =>
      let existing_summary := doc.summary_so_far.getD ""
      let combined_summary :=
        if ¬ existing_summary = "" then
          existing_summary ++ "\n\n" ++ summary_text
        else summary_text
      .ok (⟨some combined_summary⟩, system_msgs ++ recent_chunk)
  else .ok (doc, conversation_history)

/-- Embedding of the tail of `app/ai/caller.py::generate_action_response`:
the completion output is stripped and, in call mode, passed through
`extract_speak_block` with no fallback — when no speech block is present
the function returns the empty string. -/
def generate_action_response (llmOutput : String) (conversation_type : String) :
    String :=
  let ai_text := pyStrip llmOutput
  if conversation_type = "call" then extract_speak_block ai_text else ai_text

/-- Embedding of the voice rendering step of the normal (no-action) flow
in `chat()`: here the raw completion output *is* used as fallback when no
speech block is found. -/
def chat_voice_render (ai_response : String) : String :=
  let cleaned_response := extract_speak_block ai_response
  if cleaned_response = "" then ai_response else cleaned_response

/-- Result of one chat turn as the HTTP layer reports it. -/
inductive TurnResult where
  | reply : String → TurnResult
  | httpError : Nat → String → TurnResult
deriving DecidableEq, Repr

/-- Embedding of the no-intent branch of `chat()` (steps 5–7): proactive
trimming, then the conversational completion, then mode-dependent
rendering.  The surrounding `try/except` of `chat()` turns any exception
raised on the way — including one escaping `maybe_proactive_trimming` —
into an error response (HTTP 500 carrying `str(e)` for non-`ValueError`
exceptions, which is what the completion-client failures are). -/
def chat_no_intent_flow (env : Env) (doc : ChatDoc)
    (conversation_history : List Msg) (conversation_type : String) :
    TurnResult :=
  match maybe_proactive_trimming env doc conversation_history with
  | .error e => .httpError 500 e
  | .ok (_, hist2) =>
    match env.chatCompletion hist2 with
    | .error e => .httpError 500 e
    | .ok ai_response =>
      if conversation_type = "call" then
        .reply (chat_voice_render ai_response)
      else
        .reply ai_response

/-- A deterministic oracle instance for concrete runs: `dateparser`
recognises nothing, timezone conversion is the identity (a host running
in UTC), and the completion client answers with fixed texts. -/
def envNone : Env :=
  ⟨fun _ => none, id, fun _ => .ok "SUMMARY", fun _ => .ok "REPLY"⟩

/-- An oracle instance whose summarization call raises. -/
def envBoom : Env :=
  ⟨fun _ => none, id, fun _ => .error "boom", fun _ => .ok "REPLY"⟩

/-- A valid 24-hex-character owner id. -/
def uid24 : String := "507f1f77bcf86cd799439011"

/-- A concrete start time, March 1 2024 at 10:00. -/
def dt0 : DateTime := ⟨2024, 3, 1, 10, 0, 0⟩

/-- A concrete end time one hour later. -/
def dt1 : DateTime := ⟨2024, 3, 1, 11, 0, 0⟩

/-- A stored schedule owned by `uid24`, titled Dentist, starting at
`dt0`. -/
def dentistRec : Schedule :=
  ⟨5, uid24, "Dentist", dt0, some dt1, none, none, "Pending", none, false⟩

/-- The same schedule soft-deleted. -/
def dentistRecDeleted : Schedule :=
  ⟨5, uid24, "Dentist", dt0, some dt1, none, none, "Pending", none, true⟩

/-- A store holding exactly the Dentist schedule. -/
def dentistStore : Store := ⟨[dentistRec], 6⟩

/-- A numbered user message. -/
def userMsg (n : Nat) : Msg := ⟨"user", "m" ++ toString n⟩

/-- A system message followed by ten user messages. -/
def hist10 : List Msg := ⟨"system", "sys"⟩ :: (List.range 10).map userMsg

/-- A chat document with a prior rolling summary. -/
def docOld : ChatDoc := ⟨some "OLD"⟩

/-- A completion text that is exactly a well-formed JSON array holding
one delete action — the contract-compliant shape the system prompt
mandates (no fences, array-wrapped). -/
def c2ArrayText : String :=
  "[\x7b\"intent\": \"delete_schedule\", \"schedule_identifier\": \"Dentist\", \"existing_start_time\": \"2024-03-01 10:00:00\"\x7d]"

/-- What the object regex extracts from `c2ArrayText`: the array
brackets are stripped. -/
def c2StrippedFragment : String :=
  "\x7b\"intent\": \"delete_schedule\", \"schedule_identifier\": \"Dentist\", \"existing_start_time\": \"2024-03-01 10:00:00\"\x7d"

/-- The JSON object of the delete action, as the validator would see it
had the array been decoded. -/
def c2ItemJson : Json :=
  .obj [("intent", .str "delete_schedule"),
        ("schedule_identifier", .str "Dentist"),
        ("existing_start_time", .str "2024-03-01 10:00:00")]

/-- The validated action the contract promises for that object. -/
def dentistDeleteAction : SchedAction :=
  .delete ⟨"Dentist", some dt0⟩

/-- A completion text that is the same single action *not* wrapped in an
array (the bare-object form). -/
def c3BareText : String := c2StrippedFragment

/-- List helper: `find?` skips a prefix on which the predicate is
false. -/
theorem find?_append_left_none {α : Type} (p : α → Bool) (l1 l2 : List α)
    (h : ∀ x ∈ l1, p x = false) : (l1 ++ l2).find? p = l2.find? p := by
  induction l1 with
  | nil => rfl
  | cons a as ih =>
    have ha : p a = false := h a (List.mem_cons_self a as)
    simp only [List.cons_append, List.find?, ha]
    exact ih (fun x hx => h x (List.mem_cons_of_mem a hx))

/-- List helper: `find?` over a list on which the predicate is
everywhere false. -/
theorem find?_forall_false {α : Type} (p : α → Bool) (l : List α)
    (h : ∀ x ∈ l, p x = false) : l.find? p = none := by
  induction l with
  | nil => rfl
  | cons a as ih =>
    have ha : p a = false := h a (List.mem_cons_self a as)
    simp only [List.find?, ha]
    exact ih (fun x hx => h x (List.mem_cons_of_mem a hx))

/-- List helper: `deleteFirst` passes over a prefix on which the
predicate is false. -/
theorem deleteFirst_append_left (p : Schedule → Bool) (l1 l2 : List Schedule)
    (h : ∀ x ∈ l1, p x = false) :
    deleteFirst p (l1 ++ l2) = l1 ++ deleteFirst p l2 := by
  induction l1 with
  | nil => rfl
  | cons a as ih =>
    have ha : p a = false := h a (List.mem_cons_self a as)
    simp only [List.cons_append, deleteFirst, ha, Bool.false_eq_true, if_false,
      List.append_eq]
    rw [ih (fun x hx => h x (List.mem_cons_of_mem a hx))]

/-- C1, counterexample: an add action with a non-empty title, a valid
start time, a valid owner and no end time — exactly the case the claim
says must succeed with the new id — produces a failure outcome with no
created id and persists nothing: `create_schedule` requires
`schedule_end_date` to be truthy and raises before inserting. -/
theorem c1_counterexample :
    (actually_create_schedule envNone ⟨[], 0⟩ ⟨"Dentist", dt0, none, none⟩
      uid24).2.2.success = false
    ∧ (actually_create_schedule envNone ⟨[], 0⟩ ⟨"Dentist", dt0, none, none⟩
        uid24).2.1 = none
    ∧ (actually_create_schedule envNone ⟨[], 0⟩ ⟨"Dentist", dt0, none, none⟩
        uid24).1 = ⟨[], 0⟩ :=
  ⟨rfl, rfl, rfl⟩

/-- Helper: a valid ObjectId string is non-empty. -/
theorem validObjectId_ne_empty (s : String) (h : validObjectId s = true) :
    ¬ s = "" := by
  intro he
  subst he
  simp [validObjectId] at h

/-- C1, amended: for every add action carrying a non-empty title and a
valid start time but *no* end time, the Create executor returns a failure
outcome, a `none` created id, and leaves the store unchanged (the store
rejects the missing `schedule_end_date` before inserting); the success
outcome carrying the new id arises exactly when a valid end time not
before the start time is supplied.  No exception escapes the executor in
either case (its result is a plain value, never an `.error`). -/
theorem c1_create_executor_amended (env : Env) (st : Store)
    (user_id title : String) (start : DateTime) (img : Option String)
    (huser : validObjectId user_id = true) (htitle : ¬ title = "") :
    ((actually_create_schedule env st ⟨title, start, none, img⟩ user_id).1 = st
     ∧ (actually_create_schedule env st ⟨title, start, none, img⟩ user_id).2.1
        = none
     ∧ (actually_create_schedule env st ⟨title, start, none, img⟩
          user_id).2.2.success = false)
    ∧ (∀ endT, dtLt endT start = false →
        (actually_create_schedule env st ⟨title, start, some endT, img⟩
            user_id).1.schedules
          = st.schedules ++
            [⟨st.nextId, user_id, title, env.localToUTC start,
              some (env.localToUTC endT), img, none, "Pending", none, false⟩]
        ∧ (actually_create_schedule env st ⟨title, start, some endT, img⟩
            user_id).2.1 = some st.nextId
        ∧ (actually_create_schedule env st ⟨title, start, some endT, img⟩
            user_id).2.2.success = true
        ∧ ("created_id", toString st.nextId) ∈
            (actually_create_schedule env st ⟨title, start, some endT, img⟩
              user_id).2.2.info) := by
  constructor
  · simp only [actually_create_schedule, create_schedule]
    split_ifs <;> simp
  · intro endT hend
    have hne : ¬ user_id = "" := validObjectId_ne_empty user_id huser
    simp only [actually_create_schedule, create_schedule, hne, htitle, hend,
      huser, if_false, not_true, Bool.false_eq_true, if_true]
    simp

/-- C1, witness for the amended theorem at concrete inputs. -/
theorem c1_create_executor_witness :
    (actually_create_schedule envNone ⟨[], 7⟩ ⟨"Dentist", dt0, none, none⟩
      uid24).2.2.success = false
    ∧ (actually_create_schedule envNone ⟨[], 7⟩ ⟨"Dentist", dt0, some dt1, none⟩
        uid24).2.1 = some 7
    ∧ (actually_create_schedule envNone ⟨[], 7⟩ ⟨"Dentist", dt0, some dt1, none⟩
        uid24).2.2.success = true :=
  ⟨(c1_create_executor_amended envNone ⟨[], 7⟩ uid24 "Dentist" dt0 none
      (by decide) (by decide)).1.2.2,
   ((c1_create_executor_amended envNone ⟨[], 7⟩ uid24 "Dentist" dt0 none
      (by decide) (by decide)).2 dt1 (by decide)).2.1,
   ((c1_create_executor_amended envNone ⟨[], 7⟩ uid24 "Dentist" dt0 none
      (by decide) (by decide)).2 dt1 (by decide)).2.2.1⟩

/-- C2: evaluating the code at the failing input.  For a completion whose
text is exactly a well-formed JSON array of one action object (no
fences), `extract_json_from_text` returns the brace-delimited substring —
the array brackets are stripped — so the parsed fragment is an object,
not a list, and `parse_natural_language_instructions` returns `None`;
yet the validation loop itself accepts exactly that action when handed
the decoded array, showing the loss happens in extraction. -/
theorem c2_array_extraction_bug_eval (env : Env) :
    extract_json_from_text c2ArrayText = some c2StrippedFragment
    ∧ parse_natural_language_instructions env c2ArrayText = .ok none
    ∧ validateItems env [c2ItemJson] = .ok (some [dentistDeleteAction]) :=
  ⟨rfl, rfl, rfl⟩

/-- C3, counterexample: for a completion returning the single valid
delete action as a bare JSON object, the parser returns `None`, not the
one-element list the claim promises. -/
theorem c3_counterexample :
    parse_natural_language_instructions envNone c3BareText = .ok none
    ∧ ¬ ((Except.ok none : Except String (Option (List SchedAction)))
          = Except.ok (some [dentistDeleteAction])) := by
  refine ⟨rfl, ?_⟩
  intro h
  exact Option.noConfusion (Except.ok.inj h)

/-- C3, amended: a bare action object is rejected (the parsed fragment is
not a list, so the parser returns `None`); this does coincide with the
result for the array-wrapped form of the same action, but only because
the extractor also fails to deliver a list for arrays — neither form
yields a one-element action list. -/
theorem c3_bare_object_amended (env : Env) :
    parse_natural_language_instructions env c3BareText = .ok none
    ∧ parse_natural_language_instructions env c2ArrayText = .ok none :=
  ⟨rfl, rfl⟩

/-- C4, counterexample: with eleven live messages (one system, ten
user) and a summarization oracle that raises, the turn does not produce
its user-facing response — the exception escapes the trimming step and
the request handler returns an HTTP 500 carrying the error text, so the
failure *is* surfaced. -/
theorem c4_counterexample :
    chat_no_intent_flow envBoom docOld hist10 "chat" = .httpError 500 "boom"
    ∧ maybe_proactive_trimming envBoom docOld hist10 = .error "boom" :=
  ⟨rfl, rfl⟩

/-- Helper: summarizing a non-empty all-user/assistant chunk goes
straight to the completion oracle. -/
theorem summarize_on_ua_chunk (env : Env) (l : List Msg) (k : Nat)
    (hk : ¬ (l.filter isUA).take k = []) :
    summarize_with_ai env ((l.filter isUA).take k)
      = env.summarizeCall ((l.filter isUA).take k) := by
  have hfil : ((l.filter isUA).take k).filter isUA = (l.filter isUA).take k := by
    refine List.filter_eq_self.mpr (fun m hm => ?_)
    exact List.of_mem_filter (List.take_subset k (l.filter isUA) hm)
  unfold summarize_with_ai
  rw [hfil, if_neg hk]

/-- Helper: a `take` of positive size from a long enough list is
non-empty. -/
theorem take_ne_nil_of_lt (l : List Msg) (k : Nat) (hk : 0 < k)
    (hl : k ≤ l.length) : ¬ l.take k = [] := by
  intro h0
  have hlen := congrArg List.length h0
  rw [List.length_take] at hlen
  simp only [List.length_nil] at hlen
  rcases Nat.min_eq_zero_iff.mp hlen with h | h <;> omega

/-- C4, amended: when the live window holds more than `MAX_RECENT`
non-system messages and the summarization call raises, no summary is
stored and the window is left untrimmed (the raise happens before either
write), but — contrary to the claim — the exception propagates out of
`maybe_proactive_trimming`, the turn is aborted, and the handler returns
an HTTP 500 error response carrying the error text instead of the
user-facing reply. -/
theorem c4_summarization_failure_amended (env : Env) (doc : ChatDoc)
    (hist : List Msg) (e : String)
    (hlen : (hist.filter isUA).length > MAX_RECENT)
    (hsum : env.summarizeCall
        ((hist.filter isUA).take ((hist.filter isUA).length - MAX_RECENT))
        = .error e) :
    maybe_proactive_trimming env doc hist = .error e
    ∧ ∀ ct, chat_no_intent_flow env doc hist ct = .httpError 500 e := by
  have hpos : 0 < (hist.filter isUA).length - MAX_RECENT :=
    Nat.sub_pos_of_lt hlen
  have hle : (hist.filter isUA).length - MAX_RECENT
      ≤ (hist.filter isUA).length := Nat.sub_le _ _
  have hne := take_ne_nil_of_lt (hist.filter isUA) _ hpos hle
  have hsum2 : summarize_with_ai env
      ((hist.filter isUA).take ((hist.filter isUA).length - MAX_RECENT))
      = .error e := by
    rw [summarize_on_ua_chunk env hist _ hne, hsum]
  have hmain : maybe_proactive_trimming env doc hist = .error e := by
    simp only [maybe_proactive_trimming, hlen, if_true, hsum2]
  exact ⟨hmain, fun ct => by simp only [chat_no_intent_flow, hmain]⟩

/-- C4, witness for the amended theorem at concrete inputs. -/
theorem c4_summarization_failure_witness :
    maybe_proactive_trimming envBoom docOld hist10 = .error "boom"
    ∧ chat_no_intent_flow envBoom docOld hist10 "call"
        = .httpError 500 "boom" :=
  ⟨(c4_summarization_failure_amended envBoom docOld hist10 "boom"
      (by decide) rfl).1,
   (c4_summarization_failure_amended envBoom docOld hist10 "boom"
      (by decide) rfl).2 "call"⟩

/-- C5: with ten non-system messages live and the threshold of 8, the
compression step summarizes the two oldest non-system messages, replaces
the live window with exactly {system messages} ++ {last 8 non-system
messages, in order}, and stores a non-empty summary that is appended
(double-newline separated) onto any prior summary rather than replacing
it. -/
theorem c5_memory_compression (env : Env) (doc : ChatDoc) (hist : List Msg)
    (s : String)
    (hlen : (hist.filter isUA).length = 10)
    (hsum : env.summarizeCall ((hist.filter isUA).take 2) = .ok s)
    (hne : ¬ s = "") :
    maybe_proactive_trimming env doc hist
      = .ok (⟨some (if ¬ (doc.summary_so_far.getD "") = ""
                    then (doc.summary_so_far.getD "") ++ "\n\n" ++ s
                    else s)⟩,
             hist.filter isSystem ++ (hist.filter isUA).drop 2)
    ∧ ¬ (if ¬ (doc.summary_so_far.getD "") = ""
         then (doc.summary_so_far.getD "") ++ "\n\n" ++ s else s) = "" := by
  have hgt : (hist.filter isUA).length > MAX_RECENT := by
    rw [hlen]; decide
  have h2 : (hist.filter isUA).length - MAX_RECENT = 2 := by rw [hlen]; rfl
  have hchunk : ¬ (hist.filter isUA).take 2 = [] := by
    refine take_ne_nil_of_lt _ 2 (by decide) ?_
    rw [hlen]; omega
  have hsum2 : summarize_with_ai env ((hist.filter isUA).take 2) = .ok s := by
    rw [summarize_on_ua_chunk env hist 2 hchunk, hsum]
  constructor
  · simp only [maybe_proactive_trimming, hgt, if_true, h2, hsum2]
  · by_cases hp : doc.summary_so_far.getD "" = ""
    · rw [if_neg (not_not_intro hp)]
      exact hne
    · rw [if_pos hp]
      intro hcon
      have hlen0 := congrArg String.length hcon
      rw [String.length_append, String.length_append] at hlen0
      have h22 : ("\n\n" : String).length = 2 := rfl
      rw [h22] at hlen0
      simp only [String.length_empty] at hlen0
      omega

/-- C5, witness at concrete inputs: a prior summary "OLD" gains the new
summary appended after a blank line, and the window keeps the system
message plus the last eight user messages. -/
theorem c5_memory_compression_witness :
    maybe_proactive_trimming envNone docOld hist10
      = .ok (⟨some "OLD\n\nSUMMARY"⟩,
             hist10.filter isSystem ++ (hist10.filter isUA).drop 2)
    ∧ ¬ ("OLD\n\nSUMMARY" : String) = "" :=
  ⟨(c5_memory_compression envNone docOld hist10 "SUMMARY"
      (by decide) rfl (by decide)).1,
   (c5_memory_compression envNone docOld hist10 "SUMMARY"
      (by decide) rfl (by decide)).2⟩

/-- C6, counterexample: in call mode, when the completion output for an
action outcome has no speech-markup root, `generate_action_response`
returns the empty string — not the raw output the claim says the user
still receives. -/
theorem c6_counterexample :
    generate_action_response "I have deleted your Dentist appointment."
      "call" = ""
    ∧ ¬ ("" : String) = "I have deleted your Dentist appointment." :=
  ⟨rfl, by decide⟩

/-- C6, amended: the raw-output fallback exists only in the normal
conversational path of `chat()` (`chat_voice_render`); the action-outcome
renderer `generate_action_response` applies `extract_speak_block` with no
fallback, so in call mode an output without a speech-markup root becomes
the empty string. -/
theorem c6_voice_fallback_amended (ai : String)
    (h : extract_speak_block (pyStrip ai) = "") :
    generate_action_response ai "call" = ""
    ∧ (extract_speak_block ai = "" → chat_voice_render ai = ai) := by
  refine ⟨?_, fun h2 => ?_⟩
  · simp only [generate_action_response, if_pos]
    exact h
  · simp only [chat_voice_render, h2, if_pos]

/-- C6, witness for the amended theorem at a concrete input. -/
theorem c6_voice_fallback_witness :
    generate_action_response "Okay, the Dentist schedule is gone."
      "call" = ""
    ∧ chat_voice_render "Okay, the Dentist schedule is gone."
        = "Okay, the Dentist schedule is gone." :=
  ⟨(c6_voice_fallback_amended "Okay, the Dentist schedule is gone." rfl).1,
   (c6_voice_fallback_amended "Okay, the Dentist schedule is gone." rfl).2
     rfl⟩

/-- Helper: the identity-resolution predicate of
`find_schedule_by_name_and_datetime` holds exactly on matching owner,
title and start date. -/
theorem schedMatch_iff (u t : String) (d : DateTime) (s : Schedule) :
    ((s.user_id = u && s.reminder_message = t) && s.schedule_date = d) = true
      ↔ (s.user_id = u ∧ s.reminder_message = t ∧ s.schedule_date = d) := by
  simp [Bool.and_eq_true, decide_eq_true_eq, and_assoc]

/-- Helper: boolean falsity of the resolution predicate from the
propositional negation. -/
theorem schedMatch_false (u t : String) (d : DateTime) (s : Schedule)
    (h : ¬ (s.user_id = u ∧ s.reminder_message = t ∧ s.schedule_date = d)) :
    ((s.user_id = u && s.reminder_message = t) && s.schedule_date = d)
      = false := by
  cases hb : ((s.user_id = u && s.reminder_message = t)
      && s.schedule_date = d) with
  | false => rfl
  | true => exact absurd ((schedMatch_iff u t d s).mp hb) h

/-- C7: for a store holding exactly one schedule matching (owner,
identifier-as-title, existing start time), running the Delete executor
twice with the identical identifier and time succeeds the first time
(removing exactly that record) and fails closed with not-found the
second time, leaving the store unchanged — one deletion in total, never
two. -/
theorem c7_delete_idempotence (env : Env) (pre post : List Schedule)
    (rec0 : Schedule) (user title : String) (d : DateTime) (n : Nat)
    (huser : validObjectId user = true)
    (hu : rec0.user_id = user) (ht : rec0.reminder_message = title)
    (hd : rec0.schedule_date = d)
    (honly : ∀ s ∈ pre ++ post,
      ¬ (s.user_id = user ∧ s.reminder_message = title
          ∧ s.schedule_date = d))
    (hsid : ∀ s ∈ pre, ¬ s.sid = rec0.sid) :
    (actually_delete_schedule env ⟨pre ++ rec0 :: post, n⟩ ⟨title, some d⟩
      user).2.success = true
    ∧ (actually_delete_schedule env ⟨pre ++ rec0 :: post, n⟩ ⟨title, some d⟩
        user).1.schedules = pre ++ post
    ∧ (actually_delete_schedule env
        (actually_delete_schedule env ⟨pre ++ rec0 :: post, n⟩
          ⟨title, some d⟩ user).1 ⟨title, some d⟩ user).2.success = false
    ∧ (actually_delete_schedule env
        (actually_delete_schedule env ⟨pre ++ rec0 :: post, n⟩
          ⟨title, some d⟩ user).1 ⟨title, some d⟩ user).1
      = (actually_delete_schedule env ⟨pre ++ rec0 :: post, n⟩
          ⟨title, some d⟩ user).1 := by
  have hprefalse : ∀ s ∈ pre,
      ((s.user_id = user && s.reminder_message = title)
        && s.schedule_date = d) = false :=
    fun s hs => schedMatch_false user title d s
      (honly s (List.mem_append_left post hs))
  have hpostfalse : ∀ s ∈ post,
      ((s.user_id = user && s.reminder_message = title)
        && s.schedule_date = d) = false :=
    fun s hs => schedMatch_false user title d s
      (honly s (List.mem_append_right pre hs))
  have hrec : ((rec0.user_id = user && rec0.reminder_message = title)
      && rec0.schedule_date = d) = true :=
    (schedMatch_iff user title d rec0).mpr ⟨hu, ht, hd⟩
  have hfind1 : find_schedule_by_name_and_datetime ⟨pre ++ rec0 :: post, n⟩
      user title (some d) = .ok (some rec0) := by
    simp only [find_schedule_by_name_and_datetime, huser, not_true,
      Bool.false_eq_true, if_false]
    rw [find?_append_left_none _ pre _ hprefalse]
    simp only [List.find?, hrec]
  have hsidpre : ∀ s ∈ pre, (s.sid = rec0.sid : Bool) = false :=
    fun s hs => decide_eq_false (hsid s hs)
  have hdel : delete_schedule ⟨pre ++ rec0 :: post, n⟩ rec0.sid
      = .ok (⟨pre ++ post, n⟩, 1) := by
    simp only [delete_schedule]
    rw [find?_append_left_none _ pre _ hsidpre]
    rw [deleteFirst_append_left _ pre _ hsidpre]
    simp [List.find?, deleteFirst]
  have hr1 : actually_delete_schedule env ⟨pre ++ rec0 :: post, n⟩
      ⟨title, some d⟩ user
      = (⟨pre ++ post, n⟩, ⟨"delete", true,
          [("identifier", title), ("original_time", isoformat d)]⟩) := by
    simp only [actually_delete_schedule, hfind1, hdel]
    simp
  have hfind2 : find_schedule_by_name_and_datetime ⟨pre ++ post, n⟩
      user title (some d) = .ok none := by
    simp only [find_schedule_by_name_and_datetime, huser, not_true,
      Bool.false_eq_true, if_false]
    rw [find?_forall_false _ _ (fun s hs => by
      rcases List.mem_append.mp hs with h | h
      · exact hprefalse s h
      · exact hpostfalse s h)]
  have hr2 : actually_delete_schedule env ⟨pre ++ post, n⟩
      ⟨title, some d⟩ user
      = (⟨pre ++ post, n⟩, ⟨"delete", false,
          [("error_details", "Could not find a schedule named " ++ title
            ++ " to delete.")]⟩) := by
    simp only [actually_delete_schedule, hfind2]
  rw [hr1]
  simp [hr2]

/-- C7, witness at concrete inputs: the Dentist schedule is deleted once,
the replay fails closed. -/
theorem c7_delete_idempotence_witness :
    (actually_delete_schedule envNone dentistStore ⟨"Dentist", some dt0⟩
      uid24).2.success = true
    ∧ (actually_delete_schedule envNone
        (actually_delete_schedule envNone dentistStore ⟨"Dentist", some dt0⟩
          uid24).1 ⟨"Dentist", some dt0⟩ uid24).2.success = false :=
  ⟨(c7_delete_idempotence envNone [] [] dentistRec uid24 "Dentist" dt0 6
      (by decide) rfl rfl rfl (by intro s hs; cases hs) (by intro s hs; cases hs)).1,
   (c7_delete_idempotence envNone [] [] dentistRec uid24 "Dentist" dt0 6
      (by decide) rfl rfl rfl (by intro s hs; cases hs) (by intro s hs; cases hs)).2.2.1⟩

/-- C9: when an update or delete action carries no
`existing_start_time`, the exact lookup raises because its
`schedule_date` argument must be a datetime, the executor catches the
raise, and the result is always a failure outcome with the store
untouched — even if a schedule with the given title exists for the
owner (the store is universally quantified here). -/
theorem c9_missing_existing_start_time (env : Env) (st : Store)
    (user : String) (u : UpdateActionData) (d : DeleteActionData)
    (hu : u.existing_start_time = none)
    (hd : d.existing_start_time = none) :
    (actually_update_schedule env st u user).1 = st
    ∧ (actually_update_schedule env st u user).2.success = false
    ∧ (actually_delete_schedule env st d user).1 = st
    ∧ (actually_delete_schedule env st d user).2.success = false := by
  by_cases hv : validObjectId user = true
  · simp only [actually_update_schedule, actually_delete_schedule,
      find_schedule_by_name_and_datetime, hv, not_true, Bool.false_eq_true,
      if_false, hu, hd]
    simp
  · simp only [actually_update_schedule, actually_delete_schedule,
      find_schedule_by_name_and_datetime, hv, if_true, hu, hd]
    simp [hv]

/-- C9, witness: a store that does contain a Dentist schedule for the
owner still yields failure outcomes and is left unchanged when the
actions carry no existing start time. -/
theorem c9_missing_existing_start_time_witness :
    (actually_update_schedule envNone dentistStore
      ⟨"Dentist", none, some "New title", none, none⟩ uid24).2.success = false
    ∧ (actually_delete_schedule envNone dentistStore
        ⟨"Dentist", none⟩ uid24).1 = dentistStore :=
  ⟨(c9_missing_existing_start_time envNone dentistStore uid24
      ⟨"Dentist", none, some "New title", none, none⟩ ⟨"Dentist", none⟩
      rfl rfl).2.1,
   (c9_missing_existing_start_time envNone dentistStore uid24
      ⟨"Dentist", none, some "New title", none, none⟩ ⟨"Dentist", none⟩
      rfl rfl).2.2.1⟩

/-- C10: identity resolution by (owner, title, exact start time) does not
filter on the soft-delete flag.  For a stored schedule with
`is_deleted = true`, `find_schedule_by_id` returns `None`, yet
`find_schedule_by_name_and_datetime` with the matching owner, title and
start time still returns the record, and the Delete executor therefore
hard-deletes the soft-deleted schedule with a success outcome. -/
theorem c10_soft_delete_resolution (env : Env) (pre post : List Schedule)
    (rec0 : Schedule) (n : Nat)
    (huser : validObjectId rec0.user_id = true)
    (_hdel : rec0.is_deleted = true)
    (hid : ∀ s ∈ pre ++ rec0 :: post, s.sid = rec0.sid → s.is_deleted = true)
    (hpre : ∀ s ∈ pre,
      ¬ (s.user_id = rec0.user_id
          ∧ s.reminder_message = rec0.reminder_message
          ∧ s.schedule_date = rec0.schedule_date))
    (hsid : ∀ s ∈ pre, ¬ s.sid = rec0.sid) :
    find_schedule_by_id ⟨pre ++ rec0 :: post, n⟩ rec0.sid = none
    ∧ find_schedule_by_name_and_datetime ⟨pre ++ rec0 :: post, n⟩
        rec0.user_id rec0.reminder_message (some rec0.schedule_date)
      = .ok (some rec0)
    ∧ (actually_delete_schedule env ⟨pre ++ rec0 :: post, n⟩
        ⟨rec0.reminder_message, some rec0.schedule_date⟩
        rec0.user_id).2.success = true
    ∧ (actually_delete_schedule env ⟨pre ++ rec0 :: post, n⟩
        ⟨rec0.reminder_message, some rec0.schedule_date⟩
        rec0.user_id).1.schedules = pre ++ post := by
  have hbyid : find_schedule_by_id ⟨pre ++ rec0 :: post, n⟩ rec0.sid
      = none := by
    refine find?_forall_false _ _ (fun s hs => ?_)
    by_cases hq : s.sid = rec0.sid
    · have : s.is_deleted = true := hid s hs hq
      simp [this, hq]
    · simp [hq]
  have hprefalse : ∀ s ∈ pre,
      ((s.user_id = rec0.user_id
        && s.reminder_message = rec0.reminder_message)
        && s.schedule_date = rec0.schedule_date) = false :=
    fun s hs => schedMatch_false _ _ _ s (hpre s hs)
  have hfind : find_schedule_by_name_and_datetime ⟨pre ++ rec0 :: post, n⟩
      rec0.user_id rec0.reminder_message (some rec0.schedule_date)
      = .ok (some rec0) := by
    simp only [find_schedule_by_name_and_datetime, huser, not_true,
      Bool.false_eq_true, if_false]
    rw [find?_append_left_none _ pre _ hprefalse]
    simp [List.find?]
  have hsidpre : ∀ s ∈ pre, (s.sid = rec0.sid : Bool) = false :=
    fun s hs => decide_eq_false (hsid s hs)
  have hdelete : delete_schedule ⟨pre ++ rec0 :: post, n⟩ rec0.sid
      = .ok (⟨pre ++ post, n⟩, 1) := by
    simp only [delete_schedule]
    rw [find?_append_left_none _ pre _ hsidpre]
    rw [deleteFirst_append_left _ pre _ hsidpre]
    simp [List.find?, deleteFirst]
  refine ⟨hbyid, hfind, ?_, ?_⟩ <;>
    simp only [actually_delete_schedule, hfind, hdelete] <;> simp

/-- C10, witness at concrete inputs: the soft-deleted Dentist schedule is
invisible to `find_schedule_by_id` but resolvable and hard-deletable
through the title-and-time lookup. -/
theorem c10_soft_delete_resolution_witness :
    find_schedule_by_id ⟨[dentistRecDeleted], 6⟩ 5 = none
    ∧ (actually_delete_schedule envNone ⟨[dentistRecDeleted], 6⟩
        ⟨"Dentist", some dt0⟩ uid24).2.success = true :=
  ⟨(c10_soft_delete_resolution envNone [] [] dentistRecDeleted 6
      (by decide) rfl
      (by intro s hs hq; rcases List.mem_singleton.mp hs with rfl; rfl)
      (by intro s hs; cases hs) (by intro s hs; cases hs)).1,
   (c10_soft_delete_resolution envNone [] [] dentistRecDeleted 6
      (by decide) rfl
      (by intro s hs hq; rcases List.mem_singleton.mp hs with rfl; rfl)
      (by intro s hs; cases hs) (by intro s hs; cases hs)).2.2.1⟩

/-- C8: `parse_datetime` tries the strict formats
`YYYY-MM-DD HH:MM:SS`, then `YYYY-MM-DDTHH:MM:SS`, then
`MM/DD/YYYY HH:MM` in that fixed order, consults the permissive
`dateparser` fallback exactly when all three fail, and returns `None`
when the fallback also fails; in particular "2024-03-01 10:00:00" parses
to March 1 2024 at 10:00 through the first format for every oracle, and
"banana" (which matches no strict format) yields `None` whenever the
fallback rejects it. -/
theorem c8_parse_datetime_order (env : Env) (s : String) :
    (∀ d, strptime1 s = some d → parse_datetime env s = some d)
    ∧ (strptime1 s = none → ∀ d, strptime2 s = some d →
        parse_datetime env s = some d)
    ∧ (strptime1 s = none → strptime2 s = none → ∀ d, strptime3 s = some d →
        parse_datetime env s = some d)
    ∧ (strptime1 s = none → strptime2 s = none → strptime3 s = none →
        parse_datetime env s = env.dateparser s)
    ∧ parse_datetime env "2024-03-01 10:00:00" = some ⟨2024, 3, 1, 10, 0, 0⟩
    ∧ (env.dateparser "banana" = none →
        parse_datetime env "banana" = none) := by
  refine ⟨fun d h1 => ?_, fun h1 d h2 => ?_, fun h1 h2 d h3 => ?_,
    fun h1 h2 h3 => ?_, rfl, fun hb => ?_⟩
  · simp only [parse_datetime, h1]
  · simp only [parse_datetime, h1, h2]
  · simp only [parse_datetime, h1, h2, h3]
  · simp only [parse_datetime, h1, h2, h3]
  · have h1 : strptime1 "banana" = none := rfl
    have h2 : strptime2 "banana" = none := rfl
    have h3 : strptime3 "banana" = none := rfl
    simp only [parse_datetime, h1, h2, h3, hb]

/-- C8, witness: a concrete oracle rejecting "banana" makes
`parse_datetime` return `None` on it, and the first strict format fires
on "2024-03-01 10:00:00". -/
theorem c8_parse_datetime_witness :
    parse_datetime envNone "banana" = none
    ∧ parse_datetime envNone "2024-03-01 10:00:00"
        = some ⟨2024, 3, 1, 10, 0, 0⟩ :=
  ⟨(c8_parse_datetime_order envNone "banana").2.2.2.2.2 rfl,
   (c8_parse_datetime_order envNone "2024-03-01 10:00:00").2.2.2.2.1⟩
